import Mathlib

/-!
Shallow embedding of the `bevy_world_space_ui` crate (src/lib.rs) and proofs
about it.  The embedded pieces are:

* `WorldSpaceUiSurface::get_ray_mesh_hit_uv` — barycentric UV interpolation
  of a ray/mesh hit (src/lib.rs:174–206);
* `drive_diegetic_pointer` — the per-frame ray-to-cursor pass
  (src/lib.rs:213–260), with the engine-side ray cast results supplied as
  input data;
* `send_pointer_input` — the per-frame mouse-button broadcast pass
  (src/lib.rs:263–297).

Floating point vectors (`glam` `Vec2`/`Vec3`, the `f32` fields of hits and
cursor positions) are modelled over `ℚ`.  Rust panics (`Option::unwrap` on
`None`, out-of-bounds slice indexing) are modelled as `Except.error`; a Rust
return value `v` is `Except.ok v`.  Entities, pointer ids and normalized
render targets are abstracted to `ℕ` identities.
-/

namespace WorldSpaceUi

/-- Model of `glam::Vec2` over `ℚ`. -/
structure Vec2 where
  x : ℚ
  y : ℚ
  deriving DecidableEq, Repr

/-- Componentwise addition (`Add for Vec2`). -/
def Vec2.add (a b : Vec2) : Vec2 := ⟨a.x + b.x, a.y + b.y⟩

/-- Componentwise subtraction (`Sub for Vec2`). -/
def Vec2.sub (a b : Vec2) : Vec2 := ⟨a.x - b.x, a.y - b.y⟩

/-- Scalar multiplication `c * v` (`Mul<Vec2> for f32`). -/
def Vec2.smul (c : ℚ) (v : Vec2) : Vec2 := ⟨c * v.x, c * v.y⟩

/-- Componentwise multiplication (`Mul<Vec2> for Vec2`). -/
def Vec2.cmul (a b : Vec2) : Vec2 := ⟨a.x * b.x, a.y * b.y⟩

/-- Model of `glam::Vec3` over `ℚ`. -/
structure Vec3 where
  x : ℚ
  y : ℚ
  z : ℚ
  deriving DecidableEq, Repr

/-- The `zxy` swizzle from `bevy::math::Vec3Swizzles`. -/
def Vec3.zxy (v : Vec3) : Vec3 := ⟨v.z, v.x, v.y⟩

/-- Model of `bevy::math::UVec2` (`u32` pixel sizes, as `ℕ`). -/
structure UVec2 where
  x : ℕ
  y : ℕ
  deriving DecidableEq, Repr

/-- `UVec2::as_vec2`. -/
def UVec2.as_vec2 (s : UVec2) : Vec2 := ⟨(s.x : ℚ), (s.y : ℚ)⟩

/-- Model of `bevy::render::mesh::Indices`.  `U16`/`U32` entries are cast to
`usize` before any use, so both carry `ℕ` entries here. -/
inductive Indices where
  | U16 (indices : List ℕ)
  | U32 (indices : List ℕ)
  deriving DecidableEq, Repr

/-- Model of `VertexAttributeValues`: the code only reads the `Float32x2`
variant; every other variant is collapsed into `other`. -/
inductive VertexAttributeValues where
  | Float32x2 (values : List Vec2)
  | other
  deriving DecidableEq, Repr

/-- The parts of `bevy::render::mesh::Mesh` that `get_ray_mesh_hit_uv` reads:
the `ATTRIBUTE_UV_0` attribute (`none` when the mesh lacks it) and the
optional index buffer (`mesh.indices()`). -/
structure Mesh where
  attribute_uv0 : Option VertexAttributeValues
  indices : Option Indices
  deriving DecidableEq, Repr

/-- Model of `RayMeshHit`: only `triangle_index` and `barycentric_coords`
are read by this crate. -/
structure RayMeshHit where
  triangle_index : Option ℕ
  barycentric_coords : Vec3
  deriving DecidableEq, Repr

/-- Rust slice indexing `xs[i]`: panics (modelled as `Except.error`) when the
index is out of bounds. -/
def sliceIndex {α : Type} (xs : List α) (i : ℕ) : Except String α :=
  match xs[i]? with
  | some a => Except.ok a
  | none => Except.error "index out of bounds"

/-- `Option::unwrap`: panics on `None`. -/
def optionUnwrap {α : Type} (o : Option α) : Except String α :=
  match o with
  | some a => Except.ok a
  | none => Except.error "called unwrap on a None value"

/-- `(Except.ok a) >>= f` reduces to `f a`. -/
@[simp] theorem except_bind_ok {ε α β : Type} (a : α) (f : α → Except ε β) :
    (Except.ok a : Except ε α) >>= f = f a := rfl

/-- `(Except.error e) >>= f` propagates the error. -/
@[simp] theorem except_bind_error {ε α β : Type} (e : ε) (f : α → Except ε β) :
    (Except.error e : Except ε α) >>= f = Except.error e := rfl

/-- `f <$> Except.ok a` reduces to `Except.ok (f a)`. -/
@[simp] theorem except_map_ok {ε α β : Type} (f : α → β) (a : α) :
    (f <$> (Except.ok a : Except ε α)) = Except.ok (f a) := rfl

/-- `f <$> Except.error e` propagates the error. -/
@[simp] theorem except_map_error {ε α β : Type} (f : α → β) (e : ε) :
    (f <$> (Except.error e : Except ε α)) = Except.error e := rfl

/-- `pure` into `Except` is `Except.ok`. -/
@[simp] theorem except_pure_eq_ok {ε α : Type} (a : α) :
    (pure a : Except ε α) = Except.ok a := rfl

/-- The `let uvs: [Vec2; 3] = ...` block of `get_ray_mesh_hit_uv`
(src/lib.rs:180–201): fetch the three UV corners of the hit triangle, either
through a 16-bit or 32-bit index buffer or directly for a non-indexed mesh.
`uvs` is the `Float32x2` buffer already extracted from the attribute. -/
def triangleUvs (hit : RayMeshHit) (mesh : Mesh) (uvs : List Vec2) :
    Except String (Vec2 × Vec2 × Vec2) :=
  match mesh.indices with
  | some indices => do
    let i := (← optionUnwrap hit.triangle_index) * 3
    match indices with
    | Indices.U16 indices => do
      let u0 ← sliceIndex uvs (← sliceIndex indices i)
      let u1 ← sliceIndex uvs (← sliceIndex indices (i + 1))
      let u2 ← sliceIndex uvs (← sliceIndex indices (i + 2))
      pure (u0, u1, u2)
    | Indices.U32 indices => do
      let u0 ← sliceIndex uvs (← sliceIndex indices i)
      let u1 ← sliceIndex uvs (← sliceIndex indices (i + 1))
      let u2 ← sliceIndex uvs (← sliceIndex indices (i + 2))
      pure (u0, u1, u2)
  | none => do
    let i := (← optionUnwrap hit.triangle_index) * 3
    let u0 ← sliceIndex uvs i
    let u1 ← sliceIndex uvs (i + 1)
    let u2 ← sliceIndex uvs (i + 2)
    pure (u0, u1, u2)

/-- `WorldSpaceUiSurface::get_ray_mesh_hit_uv` (src/lib.rs:174–206).
Returns `.ok none` where the Rust code returns `None`, `.ok (some uv)` for
`Some(uv)`, and `.error _` where the Rust code panics. -/
def get_ray_mesh_hit_uv (hit : RayMeshHit) (mesh : Mesh) :
    Except String (Option Vec2) :=
  match mesh.attribute_uv0 with
  | some (VertexAttributeValues.Float32x2 uvs) => do
    let uvs3 ← triangleUvs hit mesh uvs
    let bc := hit.barycentric_coords.zxy
    pure (some (((Vec2.smul bc.x uvs3.1).add (Vec2.smul bc.y uvs3.2.1)).add
      (Vec2.smul bc.z uvs3.2.2)))
  | _ => Except.ok none

/-- Model of `PointerButton` (the variants this crate emits). -/
inductive PointerButton where
  | Primary
  | Secondary
  | Middle
  deriving DecidableEq, Repr

/-- Model of `PointerAction` (the variants this crate emits). -/
inductive PointerAction where
  | Move (delta : Vec2)
  | Press (button : PointerButton)
  | Release (button : PointerButton)
  deriving DecidableEq, Repr

/-- Model of `Location`: the `NormalizedRenderTarget` is abstracted to a `ℕ`
identity, the position is in pixels of the render target. -/
structure Location where
  target : ℕ
  position : Vec2
  deriving DecidableEq, Repr

/-- Model of `PointerInput::new(pointer_id, location, action)`; `PointerId`
is abstracted to a `ℕ` identity. -/
structure PointerInput where
  pointer_id : ℕ
  location : Location
  action : PointerAction
  deriving DecidableEq, Repr

/-- `WorldSpaceUiRenderTarget`: the cached normalized render target and the
texture's pixel size. -/
structure WorldSpaceUiRenderTarget where
  target : ℕ
  size : UVec2
  deriving DecidableEq, Repr

/-- `let position = render_target.size.as_vec2() * uv;` (src/lib.rs:242). -/
def derivedPosition (size : UVec2) (uv : Vec2) : Vec2 :=
  size.as_vec2.cmul uv

/-- One row of the `surfaces` query of `drive_diegetic_pointer`
(`&WorldSpaceUiSurface`, `&WorldSpaceUiRenderTarget`, `&Mesh3d`,
`&mut PreviousCursorPosition`), keyed by its entity (a `ℕ`).  The `Mesh3d`
handle is resolved through `Assets<Mesh>` by
`meshes.get(mesh_handle).unwrap()`; the model stores the resolved mesh
directly.  `cursor_last` is the `PreviousCursorPosition` component. -/
structure SurfaceRow where
  entity : ℕ
  pointer_id : ℕ
  render_target : WorldSpaceUiRenderTarget
  mesh : Mesh
  cursor_last : Vec2
  deriving DecidableEq, Repr

/-- `surfaces.get_mut(*cube)`: `.error` models the bevy query error that the
`?` operator propagates when the entity does not match the query. -/
def queryGet (surfaces : List SurfaceRow) (entity : ℕ) :
    Except String SurfaceRow :=
  match surfaces.find? (fun s => s.entity == entity) with
  | some s => Except.ok s
  | none => Except.error "entity does not match the query"

/-- Writing through the `&mut PreviousCursorPosition` of the row for
`entity`: `cursor_last.0 = position;` (src/lib.rs:254). -/
def setCursor (surfaces : List SurfaceRow) (entity : ℕ) (p : Vec2) :
    List SurfaceRow :=
  surfaces.map (fun s => if s.entity == entity then { s with cursor_last := p } else s)

/-- The body of the inner loop of `drive_diegetic_pointer`
(src/lib.rs:235–256) for one `(entity, hit)` pair.  Returns the updated query
state, the `hit_pointer_ids.push` values, and the `PointerInput` events
written; `.error` models both the `?`-propagated query error and panics. -/
def processHit (surfaces : List SurfaceRow) (cube : ℕ) (hit : RayMeshHit) :
    Except String (List SurfaceRow × List ℕ × List PointerInput) := do
  let surface ← queryGet surfaces cube
  match get_ray_mesh_hit_uv hit surface.mesh with
  | Except.error e => Except.error e
  | Except.ok none => pure (surfaces, [], [])
  | Except.ok (some uv) =>
    let position := derivedPosition surface.render_target.size uv
    if position ≠ surface.cursor_last then
      pure (setCursor surfaces cube position,
        [surface.pointer_id],
        [⟨surface.pointer_id, ⟨surface.render_target.target, position⟩,
          PointerAction.Move (position.sub surface.cursor_last)⟩])
    else
      pure (surfaces, [surface.pointer_id], [])

/-- The hit loop of `drive_diegetic_pointer` over a list of `(entity, hit)`
pairs, threading the query state, `hit_pointer_ids` and written events.
A propagated error aborts the loop; the `EventWriter` writes and
`PreviousCursorPosition` updates made before the error persist, and the
remaining hits are not processed. -/
def processHits (surfaces : List SurfaceRow) (ids : List ℕ)
    (events : List PointerInput) :
    List (ℕ × RayMeshHit) →
      List SurfaceRow × List ℕ × List PointerInput × Option String
  | [] => (surfaces, ids, events, none)
  | (cube, hit) :: rest =>
    match processHit surfaces cube hit with
    | Except.error e => (surfaces, ids, events, some e)
    | Except.ok (surfaces', ids', events') =>
      processHits surfaces' (ids ++ ids') (events ++ events') rest

/-- `RayCastVisibility` (only the variant used by this crate, plus a
catch-all). -/
inductive RayCastVisibility where
  | VisibleInView
  | Any
  deriving DecidableEq, Repr

/-- `MeshRayCastSettings`, with the entity predicates. -/
structure MeshRayCastSettings where
  visibility : RayCastVisibility
  filter : ℕ → Bool
  early_exit_test : ℕ → Bool

/-- The `raycast_settings` value built at src/lib.rs:227–231:
`surfaces_check` is the list of entities matching
`Query<Entity, With<WorldSpaceUiSurface>>`. -/
def raycast_settings (surfaces_check : List ℕ) : MeshRayCastSettings :=
  { visibility := RayCastVisibility.VisibleInView
    filter := fun entity => surfaces_check.contains entity
    early_exit_test := fun _ => false }

/-- `drive_diegetic_pointer` (src/lib.rs:213–260).  The engine-side ray cast
is supplied as input data: `rays` holds, for each `(_id, ray)` of the
`RayMap`, the `(entity, hit)` list that `raycast.cast_ray` returns for it
under `raycast_settings`.  Returns the final query state, `hit_pointer_ids`,
the written `PointerInput` events, and the propagated error if any
(`Ok(())` is `none`). -/
def drive_diegetic_pointer (surfaces : List SurfaceRow)
    (rays : List (List (ℕ × RayMeshHit))) :
    List SurfaceRow × List ℕ × List PointerInput × Option String :=
  processHits surfaces [] [] rays.flatten

/-- Model of `bevy::input::mouse::MouseButton`. -/
inductive MouseButton where
  | Left
  | Right
  | Middle
  | Back
  | Forward
  | Other (v : ℕ)
  deriving DecidableEq, Repr

/-- Model of `bevy::input::ButtonState`. -/
inductive ButtonState where
  | Pressed
  | Released
  deriving DecidableEq, Repr

/-- Model of `MouseButtonInput` (the fields this crate reads). -/
structure MouseButtonInput where
  button : MouseButton
  state : ButtonState
  deriving DecidableEq, Repr

/-- Model of `WindowEvent`: only the `MouseButtonInput` variant is read; all
other variants are collapsed into `other`. -/
inductive WindowEvent where
  | MouseButtonInput (input : MouseButtonInput)
  | other
  deriving DecidableEq, Repr

/-- The `match input.button` of `send_pointer_input` (src/lib.rs:275–280):
`none` models the `continue` on every other button. -/
def mouseButtonToPointerButton : MouseButton → Option PointerButton
  | MouseButton.Left => some PointerButton.Primary
  | MouseButton.Right => some PointerButton.Secondary
  | MouseButton.Middle => some PointerButton.Middle
  | _ => none

/-- The `match input.state` of `send_pointer_input` (src/lib.rs:281–284). -/
def buttonStateToAction (button : PointerButton) : ButtonState → PointerAction
  | ButtonState.Pressed => PointerAction.Press button
  | ButtonState.Released => PointerAction.Release button

/-- One row of the `surfaces` query of `send_pointer_input`
(`&WorldSpaceUiSurface`, `&WorldSpaceUiRenderTarget`,
`&PreviousCursorPosition`). -/
structure SendSurfaceRow where
  pointer_id : ℕ
  render_target : WorldSpaceUiRenderTarget
  cursor_last : Vec2
  deriving DecidableEq, Repr

/-- `send_pointer_input` (src/lib.rs:263–297): for every window event that is
a mouse button state change on a left/right/middle button, write one
`PointerInput` per registered surface carrying that surface's own pointer id
and last cursor position.  Total: the Rust function returns `()` and has no
fallible operations. -/
def send_pointer_input (surfaces : List SendSurfaceRow) :
    List WindowEvent → List PointerInput
  | [] => []
  | WindowEvent.MouseButtonInput input :: rest =>
    (match mouseButtonToPointerButton input.button with
      | none => []
      | some button =>
        let action := buttonStateToAction button input.state
        surfaces.map (fun s =>
          ⟨s.pointer_id, ⟨s.render_target.target, s.cursor_last⟩, action⟩))
      ++ send_pointer_input surfaces rest
  | WindowEvent.other :: rest => send_pointer_input surfaces rest

/-! ## Helper lemmas -/

/-- `processHit` when the surface lookup and the UV computation succeed and
the derived position equals the stored previous cursor position: the pointer
id is recorded but no event is written and the state is unchanged. -/
theorem processHit_unchanged (surfaces : List SurfaceRow) (cube : ℕ)
    (hit : RayMeshHit) (surface : SurfaceRow) (uv : Vec2)
    (hget : queryGet surfaces cube = Except.ok surface)
    (huv : get_ray_mesh_hit_uv hit surface.mesh = Except.ok (some uv))
    (heq : derivedPosition surface.render_target.size uv = surface.cursor_last) :
    processHit surfaces cube hit =
      Except.ok (surfaces, [surface.pointer_id], []) := by
  simp [processHit, hget, huv, heq]

/-- `processHit` when the surface lookup and the UV computation succeed and
the derived position differs from the stored previous cursor position: one
move event is written and the cursor is updated. -/
theorem processHit_moved (surfaces : List SurfaceRow) (cube : ℕ)
    (hit : RayMeshHit) (surface : SurfaceRow) (uv : Vec2)
    (hget : queryGet surfaces cube = Except.ok surface)
    (huv : get_ray_mesh_hit_uv hit surface.mesh = Except.ok (some uv))
    (hne : derivedPosition surface.render_target.size uv ≠ surface.cursor_last) :
    processHit surfaces cube hit =
      Except.ok (setCursor surfaces cube (derivedPosition surface.render_target.size uv),
        [surface.pointer_id],
        [⟨surface.pointer_id,
          ⟨surface.render_target.target, derivedPosition surface.render_target.size uv⟩,
          PointerAction.Move
            ((derivedPosition surface.render_target.size uv).sub surface.cursor_last)⟩]) := by
  simp [processHit, hget, huv, hne]

/-- `processHit` when the surface lookup succeeds but the mesh yields no UV:
the hit is skipped, leaving state, ids and events untouched. -/
theorem processHit_no_uv (surfaces : List SurfaceRow) (cube : ℕ)
    (hit : RayMeshHit) (surface : SurfaceRow)
    (hget : queryGet surfaces cube = Except.ok surface)
    (huv : get_ray_mesh_hit_uv hit surface.mesh = Except.ok none) :
    processHit surfaces cube hit = Except.ok (surfaces, [], []) := by
  simp [processHit, hget, huv]

/-- `setCursor` keeps every row's entity. -/
theorem setCursor_entity (surfaces : List SurfaceRow) (cube : ℕ) (p : Vec2) :
    ∀ s ∈ setCursor surfaces cube p, ∃ s₀ ∈ surfaces, s.entity = s₀.entity := by
  intro s hs
  simp only [setCursor, List.mem_map] at hs
  obtain ⟨s₀, hs₀, hmap⟩ := hs
  refine ⟨s₀, hs₀, ?_⟩
  by_cases h : s₀.entity == cube <;> simp [h] at hmap <;> subst hmap <;> rfl

/-- Looking up an entity after `setCursor` on that entity returns the old row
with its cursor replaced. -/
theorem queryGet_setCursor (surfaces : List SurfaceRow) (cube : ℕ) (p : Vec2)
    (surface : SurfaceRow)
    (hget : queryGet surfaces cube = Except.ok surface) :
    queryGet (setCursor surfaces cube p) cube =
      Except.ok { surface with cursor_last := p } := by
  induction surfaces with
  | nil => simp [queryGet, List.find?] at hget
  | cons s rest ih =>
    by_cases h : s.entity == cube
    · simp [queryGet, setCursor, List.find?, h] at hget ⊢
      subst hget
      simp
    · have h' : (s.entity == cube) = false := by simpa using h
      simp only [queryGet, setCursor, List.map_cons, List.find?, h',
        Bool.false_eq_true, if_false] at hget ⊢
      exact ih hget

/-! ## Claim C1 -/

/-- C1: for a hit with barycentric weights `(b0, b1, b2)` summing to 1 whose
triangle has UV corners `(uv0, uv1, uv2)`, `get_ray_mesh_hit_uv` returns
`b2·uv0 + b0·uv1 + b1·uv2` — the weights are applied under the `(z, x, y)`
permutation, not in axis order; in particular for `uv0 = (0,0)`,
`uv1 = (1,0)`, `uv2 = (0,1)` and barycentric `(1,0,0)` the result is
`uv1 = (1,0)`, not `uv0`. -/
theorem C1_barycentric_zxy_permutation
    (hit : RayMeshHit) (mesh : Mesh) (uvsList : List Vec2)
    (b0 b1 b2 : ℚ) (uv0 uv1 uv2 : Vec2)
    (hbc : hit.barycentric_coords = ⟨b0, b1, b2⟩)
    (hsum : b0 + b1 + b2 = 1)
    (hattr : mesh.attribute_uv0 = some (VertexAttributeValues.Float32x2 uvsList))
    (htri : triangleUvs hit mesh uvsList = Except.ok (uv0, uv1, uv2)) :
    get_ray_mesh_hit_uv hit mesh =
      Except.ok (some (((Vec2.smul b2 uv0).add (Vec2.smul b0 uv1)).add
        (Vec2.smul b1 uv2)))
    ∧ get_ray_mesh_hit_uv ⟨some 0, ⟨1, 0, 0⟩⟩
        ⟨some (VertexAttributeValues.Float32x2 [⟨0, 0⟩, ⟨1, 0⟩, ⟨0, 1⟩]), none⟩
      = Except.ok (some ⟨1, 0⟩) := by
  constructor
  · obtain ⟨attr, idx⟩ := mesh
    simp only [Mesh.attribute_uv0] at hattr
    subst hattr
    simp [get_ray_mesh_hit_uv, htri, hbc, Vec3.zxy]
  · simp [get_ray_mesh_hit_uv, triangleUvs, sliceIndex, optionUnwrap, Vec3.zxy,
      Vec2.smul, Vec2.add, List.get?]

/-- Witness for C1: barycentric `(1/4, 1/4, 1/2)` on the unit UV triangle
gives `1/2·(0,0) + 1/4·(1,0) + 1/4·(0,1)`. -/
theorem C1_barycentric_zxy_permutation_witness :
    get_ray_mesh_hit_uv ⟨some 0, ⟨1/4, 1/4, 1/2⟩⟩
      ⟨some (VertexAttributeValues.Float32x2 [⟨0, 0⟩, ⟨1, 0⟩, ⟨0, 1⟩]), none⟩
      = Except.ok (some (((Vec2.smul (1/2) ⟨0, 0⟩).add (Vec2.smul (1/4) ⟨1, 0⟩)).add
          (Vec2.smul (1/4) ⟨0, 1⟩)))
    ∧ get_ray_mesh_hit_uv ⟨some 0, ⟨1, 0, 0⟩⟩
        ⟨some (VertexAttributeValues.Float32x2 [⟨0, 0⟩, ⟨1, 0⟩, ⟨0, 1⟩]), none⟩
      = Except.ok (some ⟨1, 0⟩) :=
  C1_barycentric_zxy_permutation
    ⟨some 0, ⟨1/4, 1/4, 1/2⟩⟩
    ⟨some (VertexAttributeValues.Float32x2 [⟨0, 0⟩, ⟨1, 0⟩, ⟨0, 1⟩]), none⟩
    [⟨0, 0⟩, ⟨1, 0⟩, ⟨0, 1⟩] (1/4) (1/4) (1/2) ⟨0, 0⟩ ⟨1, 0⟩ ⟨0, 1⟩
    rfl (by norm_num) rfl
    (by simp [triangleUvs, sliceIndex, optionUnwrap, List.get?])

/-! ## Claim C2 -/

/-- C2: for every UV coordinate `(u, v)` in `[0,1] × [0,1]` and every cached
render-target pixel size `(W, H)`, the derived pixel-space cursor position
`render_target.size.as_vec2() * uv` equals `(u·W, v·H)` exactly. -/
theorem C2_pixel_position (u v : ℚ) (W H : ℕ)
    (hu0 : 0 ≤ u) (hu1 : u ≤ 1) (hv0 : 0 ≤ v) (hv1 : v ≤ 1) :
    derivedPosition ⟨W, H⟩ ⟨u, v⟩ = ⟨u * (W : ℚ), v * (H : ℚ)⟩ := by
  simp only [derivedPosition, UVec2.as_vec2, Vec2.cmul, Vec2.mk.injEq]
  exact ⟨mul_comm _ _, mul_comm _ _⟩

/-- Witness for C2 at `uv = (1/2, 1/4)`, size `640 × 480`. -/
theorem C2_pixel_position_witness :
    derivedPosition ⟨640, 480⟩ ⟨1/2, 1/4⟩ =
      ⟨(1/2 : ℚ) * (640 : ℕ), (1/4 : ℚ) * (480 : ℕ)⟩ :=
  C2_pixel_position (1/2) (1/4) 640 480
    (by norm_num) (by norm_num) (by norm_num) (by norm_num)

/-! ## Claim C3 -/

/-- C3: if a hit on a surface resolves to a pixel position equal to the
surface's stored previous cursor position, the ray-to-cursor pass emits no
move event for that hit and leaves the state unchanged; a move event is
emitted only when the derived position differs from the stored previous
position. -/
theorem C3_no_duplicate_move
    (surfaces : List SurfaceRow) (cube : ℕ) (hit : RayMeshHit)
    (surface : SurfaceRow) (uv : Vec2)
    (hget : queryGet surfaces cube = Except.ok surface)
    (huv : get_ray_mesh_hit_uv hit surface.mesh = Except.ok (some uv)) :
    (derivedPosition surface.render_target.size uv = surface.cursor_last →
      processHit surfaces cube hit = Except.ok (surfaces, [surface.pointer_id], []))
    ∧ ∀ surfaces' ids' events',
        processHit surfaces cube hit = Except.ok (surfaces', ids', events') →
        events' ≠ [] →
        derivedPosition surface.render_target.size uv ≠ surface.cursor_last := by
  constructor
  · exact processHit_unchanged surfaces cube hit surface uv hget huv
  · intro surfaces' ids' events' hp hne
    by_contra hcon
    rw [processHit_unchanged surfaces cube hit surface uv hget huv hcon] at hp
    simp only [Except.ok.injEq, Prod.mk.injEq] at hp
    exact hne hp.2.2.symm

/-- Witness for C3: a hit whose derived position `(100, 0)` equals the stored
cursor emits no event. -/
theorem C3_no_duplicate_move_witness :
    processHit
      [⟨5, 7, ⟨0, ⟨100, 200⟩⟩,
        ⟨some (VertexAttributeValues.Float32x2 [⟨0, 0⟩, ⟨1, 0⟩, ⟨0, 1⟩]), none⟩,
        ⟨100, 0⟩⟩]
      5 ⟨some 0, ⟨1, 0, 0⟩⟩ =
      Except.ok
        ([⟨5, 7, ⟨0, ⟨100, 200⟩⟩,
          ⟨some (VertexAttributeValues.Float32x2 [⟨0, 0⟩, ⟨1, 0⟩, ⟨0, 1⟩]), none⟩,
          ⟨100, 0⟩⟩], [7], []) :=
  (C3_no_duplicate_move _ 5 ⟨some 0, ⟨1, 0, 0⟩⟩
      ⟨5, 7, ⟨0, ⟨100, 200⟩⟩,
        ⟨some (VertexAttributeValues.Float32x2 [⟨0, 0⟩, ⟨1, 0⟩, ⟨0, 1⟩]), none⟩,
        ⟨100, 0⟩⟩ ⟨1, 0⟩
      (by simp [queryGet, List.find?])
      (by simp [get_ray_mesh_hit_uv, triangleUvs, sliceIndex, optionUnwrap,
        Vec3.zxy, Vec2.smul, Vec2.add, List.get?])).1
    (by simp only [derivedPosition, UVec2.as_vec2, Vec2.cmul, Vec2.mk.injEq]
        norm_num)

/-! ## Claim C4 -/

/-- C4: every move event emitted by the ray-to-cursor pass carries a delta
equal to `new_position - previous_position` exactly, and after emission the
surface's stored previous cursor position equals `new_position`. -/
theorem C4_move_event_delta
    (surfaces : List SurfaceRow) (cube : ℕ) (hit : RayMeshHit)
    (surface : SurfaceRow) (uv : Vec2)
    (hget : queryGet surfaces cube = Except.ok surface)
    (huv : get_ray_mesh_hit_uv hit surface.mesh = Except.ok (some uv))
    (hne : derivedPosition surface.render_target.size uv ≠ surface.cursor_last) :
    processHit surfaces cube hit =
      Except.ok (setCursor surfaces cube (derivedPosition surface.render_target.size uv),
        [surface.pointer_id],
        [⟨surface.pointer_id,
          ⟨surface.render_target.target, derivedPosition surface.render_target.size uv⟩,
          PointerAction.Move
            ((derivedPosition surface.render_target.size uv).sub surface.cursor_last)⟩])
    ∧ queryGet (setCursor surfaces cube (derivedPosition surface.render_target.size uv))
        cube =
      Except.ok { surface with
        cursor_last := derivedPosition surface.render_target.size uv } :=
  ⟨processHit_moved surfaces cube hit surface uv hget huv hne,
    queryGet_setCursor surfaces cube _ surface hget⟩

/-- Witness for C4: a hit at derived position `(100, 0)` against a stored
cursor `(0, 0)` emits one move event with delta `(100, 0) - (0, 0)` and the
stored cursor becomes `(100, 0)`. -/
theorem C4_move_event_delta_witness :
    processHit
      [⟨5, 7, ⟨0, ⟨100, 200⟩⟩,
        ⟨some (VertexAttributeValues.Float32x2 [⟨0, 0⟩, ⟨1, 0⟩, ⟨0, 1⟩]), none⟩,
        ⟨0, 0⟩⟩]
      5 ⟨some 0, ⟨1, 0, 0⟩⟩ =
      Except.ok
        (setCursor
          [⟨5, 7, ⟨0, ⟨100, 200⟩⟩,
            ⟨some (VertexAttributeValues.Float32x2 [⟨0, 0⟩, ⟨1, 0⟩, ⟨0, 1⟩]), none⟩,
            ⟨0, 0⟩⟩] 5 (derivedPosition ⟨100, 200⟩ ⟨1, 0⟩),
          [7],
          [⟨7, ⟨0, derivedPosition ⟨100, 200⟩ ⟨1, 0⟩⟩,
            PointerAction.Move ((derivedPosition ⟨100, 200⟩ ⟨1, 0⟩).sub ⟨0, 0⟩)⟩])
    ∧ queryGet
        (setCursor
          [⟨5, 7, ⟨0, ⟨100, 200⟩⟩,
            ⟨some (VertexAttributeValues.Float32x2 [⟨0, 0⟩, ⟨1, 0⟩, ⟨0, 1⟩]), none⟩,
            ⟨0, 0⟩⟩] 5 (derivedPosition ⟨100, 200⟩ ⟨1, 0⟩)) 5 =
      Except.ok ⟨5, 7, ⟨0, ⟨100, 200⟩⟩,
        ⟨some (VertexAttributeValues.Float32x2 [⟨0, 0⟩, ⟨1, 0⟩, ⟨0, 1⟩]), none⟩,
        derivedPosition ⟨100, 200⟩ ⟨1, 0⟩⟩ :=
  C4_move_event_delta _ 5 ⟨some 0, ⟨1, 0, 0⟩⟩
    ⟨5, 7, ⟨0, ⟨100, 200⟩⟩,
      ⟨some (VertexAttributeValues.Float32x2 [⟨0, 0⟩, ⟨1, 0⟩, ⟨0, 1⟩]), none⟩,
      ⟨0, 0⟩⟩ ⟨1, 0⟩
    (by simp [queryGet, List.find?])
    (by simp [get_ray_mesh_hit_uv, triangleUvs, sliceIndex, optionUnwrap,
      Vec3.zxy, Vec2.smul, Vec2.add, List.get?])
    (by simp only [derivedPosition, UVec2.as_vec2, Vec2.cmul, ne_eq, Vec2.mk.injEq]
        norm_num)

/-! ## Claim C5 -/

/-- C5: a mouse button state-change event on a left/right/middle button is
forwarded once to every currently registered surface, each emitted event
carrying that surface's own last-known cursor position and that surface's
own pointer id; other buttons are ignored. -/
theorem C5_button_broadcast
    (surfaces : List SendSurfaceRow) (input : MouseButtonInput)
    (button : PointerButton)
    (hbtn : mouseButtonToPointerButton input.button = some button) :
    send_pointer_input surfaces [WindowEvent.MouseButtonInput input] =
      surfaces.map (fun s =>
        ⟨s.pointer_id, ⟨s.render_target.target, s.cursor_last⟩,
          buttonStateToAction button input.state⟩)
    ∧ (∀ input' : MouseButtonInput,
        mouseButtonToPointerButton input'.button = none →
        send_pointer_input surfaces [WindowEvent.MouseButtonInput input'] = [])
    ∧ mouseButtonToPointerButton MouseButton.Left = some PointerButton.Primary
    ∧ mouseButtonToPointerButton MouseButton.Right = some PointerButton.Secondary
    ∧ mouseButtonToPointerButton MouseButton.Middle = some PointerButton.Middle
    ∧ mouseButtonToPointerButton MouseButton.Back = none
    ∧ mouseButtonToPointerButton MouseButton.Forward = none
    ∧ ∀ v, mouseButtonToPointerButton (MouseButton.Other v) = none := by
  refine ⟨?_, ?_, rfl, rfl, rfl, rfl, rfl, fun v => rfl⟩
  · simp [send_pointer_input, hbtn]
  · intro input' hnone
    simp [send_pointer_input, hnone]

/-- Witness for C5: a left press is broadcast to two surfaces, each event at
its own surface's cursor position and pointer id. -/
theorem C5_button_broadcast_witness :
    send_pointer_input
      [⟨1, ⟨0, ⟨10, 10⟩⟩, ⟨3, 4⟩⟩, ⟨2, ⟨5, ⟨20, 20⟩⟩, ⟨7, 8⟩⟩]
      [WindowEvent.MouseButtonInput ⟨MouseButton.Left, ButtonState.Pressed⟩] =
      [⟨1, ⟨0, ⟨3, 4⟩⟩, PointerAction.Press PointerButton.Primary⟩,
        ⟨2, ⟨5, ⟨7, 8⟩⟩, PointerAction.Press PointerButton.Primary⟩] := by
  have h := (C5_button_broadcast
    [⟨1, ⟨0, ⟨10, 10⟩⟩, ⟨3, 4⟩⟩, ⟨2, ⟨5, ⟨20, 20⟩⟩, ⟨7, 8⟩⟩]
    ⟨MouseButton.Left, ButtonState.Pressed⟩ PointerButton.Primary rfl).1
  simpa [buttonStateToAction] using h

/-! ## Claim C7 -/

/-- C7: for every hit, a mesh that lacks a `Float32x2` UV attribute makes
`get_ray_mesh_hit_uv` return "no UV" (`Ok(None)`, never a panic or a default
value), and the ray-to-cursor pass skips such a hit without emitting an
event or modifying cursor state. -/
theorem C7_missing_uv_attribute
    (hit : RayMeshHit) (mesh : Mesh)
    (hnouv : ∀ uvs, mesh.attribute_uv0 ≠ some (VertexAttributeValues.Float32x2 uvs)) :
    get_ray_mesh_hit_uv hit mesh = Except.ok none
    ∧ ∀ surfaces cube surface,
        queryGet surfaces cube = Except.ok surface →
        surface.mesh = mesh →
        processHit surfaces cube hit = Except.ok (surfaces, [], []) := by
  have hnone : get_ray_mesh_hit_uv hit mesh = Except.ok none := by
    obtain ⟨attr, idx⟩ := mesh
    match attr with
    | none => simp [get_ray_mesh_hit_uv]
    | some VertexAttributeValues.other => simp [get_ray_mesh_hit_uv]
    | some (VertexAttributeValues.Float32x2 uvs) => exact absurd rfl (hnouv uvs)
  refine ⟨hnone, fun surfaces cube surface hget hmesh => ?_⟩
  exact processHit_no_uv surfaces cube hit surface hget (by rw [hmesh]; exact hnone)

/-- Witness for C7 on a mesh with no attributes at all. -/
theorem C7_missing_uv_attribute_witness :
    get_ray_mesh_hit_uv ⟨some 0, ⟨1, 0, 0⟩⟩ ⟨none, none⟩ = Except.ok none
    ∧ processHit [⟨3, 9, ⟨0, ⟨10, 10⟩⟩, ⟨none, none⟩, ⟨0, 0⟩⟩] 3 ⟨some 0, ⟨1, 0, 0⟩⟩ =
        Except.ok ([⟨3, 9, ⟨0, ⟨10, 10⟩⟩, ⟨none, none⟩, ⟨0, 0⟩⟩], [], []) :=
  have h := C7_missing_uv_attribute ⟨some 0, ⟨1, 0, 0⟩⟩ ⟨none, none⟩ (by simp)
  ⟨h.1, h.2 [⟨3, 9, ⟨0, ⟨10, 10⟩⟩, ⟨none, none⟩, ⟨0, 0⟩⟩] 3
    ⟨3, 9, ⟨0, ⟨10, 10⟩⟩, ⟨none, none⟩, ⟨0, 0⟩⟩
    (by simp [queryGet, List.find?]) rfl⟩

/-! ## Claim C9 -/

/-- C9: a failing surface lookup in the ray-to-cursor pass aborts the pass
with a propagated error — effects made before the failure persist, the
remaining hits are not processed, and the error is reported, not masked —
while the button-forwarding pass is a total function with no fallible
operations. -/
theorem C9_error_propagation
    (surfaces : List SurfaceRow) (ids : List ℕ) (events : List PointerInput)
    (cube : ℕ) (hit : RayMeshHit) (rest : List (ℕ × RayMeshHit)) (e : String)
    (hfail : queryGet surfaces cube = Except.error e) :
    processHits surfaces ids events ((cube, hit) :: rest) =
      (surfaces, ids, events, some e)
    ∧ ∀ (sends : List SendSurfaceRow) (wevents : List WindowEvent),
        ∃ out, send_pointer_input sends wevents = out := by
  constructor
  · have hp : processHit surfaces cube hit = Except.error e := by
      simp [processHit, hfail]
    simp [processHits, hp]
  · exact fun sends wevents => ⟨_, rfl⟩

/-- Witness for C9: a hit on an entity matching no surface aborts the pass
with the query error, processing nothing further. -/
theorem C9_error_propagation_witness :
    processHits [] [] [] [(0, ⟨some 0, ⟨1, 0, 0⟩⟩), (1, ⟨some 0, ⟨1, 0, 0⟩⟩)] =
      ([], [], [], some "entity does not match the query") :=
  (C9_error_propagation [] [] [] 0 ⟨some 0, ⟨1, 0, 0⟩⟩ [(1, ⟨some 0, ⟨1, 0, 0⟩⟩)]
    "entity does not match the query" (by simp [queryGet, List.find?])).1

/-! ## Claim C6 -/

/-- Bind for `Except` is associative. -/
@[simp] theorem except_bind_assoc {ε α β γ : Type} (x : Except ε α)
    (f : α → Except ε β) (g : β → Except ε γ) :
    (x >>= f) >>= g = x >>= fun a => f a >>= g := by
  cases x <;> rfl

/-- If `uvs'` is the expansion of `uvs` through the index list `l`
(position `i` of `uvs'` holds `uvs[l[i]]`), then direct indexing into `uvs'`
equals indexing through `l` into `uvs`, panics included. -/
theorem sliceIndex_expand (l : List ℕ) (uvs uvs' : List Vec2)
    (hexp : ∀ i : ℕ, uvs'[i]? = l[i]?.bind (fun k => uvs[k]?)) (j : ℕ) :
    sliceIndex uvs' j = sliceIndex l j >>= fun k => sliceIndex uvs k := by
  rcases hb : l[j]? with _ | k
  · simp [sliceIndex, hexp j, hb]
  · rcases hg : uvs[k]? with _ | u <;> simp [sliceIndex, hexp j, hb, hg]

/-- The triangle-corner fetch agrees between a 16-bit indexed mesh over
`uvs` and a non-indexed mesh over the expanded buffer `uvs'`. -/
theorem triangleUvs_expand (hit : RayMeshHit) (l : List ℕ) (uvs uvs' : List Vec2)
    (hexp : ∀ i : ℕ, uvs'[i]? = l[i]?.bind (fun k => uvs[k]?)) :
    triangleUvs hit ⟨some (VertexAttributeValues.Float32x2 uvs),
        some (Indices.U16 l)⟩ uvs =
      triangleUvs hit ⟨some (VertexAttributeValues.Float32x2 uvs'), none⟩ uvs' := by
  rcases hit with ⟨ti, bc⟩
  cases ti with
  | none => rfl
  | some t =>
    simp only [triangleUvs, optionUnwrap, except_bind_ok,
      sliceIndex_expand l uvs uvs' hexp, except_bind_assoc]

/-- C6: a 16-bit indexed mesh, a 32-bit indexed mesh and a non-indexed mesh
encoding equivalent triangle/UV geometry give identical UV results for
equivalent hits (same triangle index and barycentric coordinates).
`uvs'` is the non-indexed buffer obtained by reading `uvs` through the
index list `l`. -/
theorem C6_mesh_encoding_equivalence
    (hit : RayMeshHit) (l : List ℕ) (uvs uvs' : List Vec2)
    (hexp : ∀ i : ℕ, uvs'[i]? = l[i]?.bind (fun k => uvs[k]?)) :
    get_ray_mesh_hit_uv hit
        ⟨some (VertexAttributeValues.Float32x2 uvs), some (Indices.U16 l)⟩ =
      get_ray_mesh_hit_uv hit
        ⟨some (VertexAttributeValues.Float32x2 uvs), some (Indices.U32 l)⟩
    ∧ get_ray_mesh_hit_uv hit
        ⟨some (VertexAttributeValues.Float32x2 uvs), some (Indices.U16 l)⟩ =
      get_ray_mesh_hit_uv hit
        ⟨some (VertexAttributeValues.Float32x2 uvs'), none⟩ := by
  refine ⟨rfl, ?_⟩
  simp only [get_ray_mesh_hit_uv]
  rw [triangleUvs_expand hit l uvs uvs' hexp]

/-- Witness for C6: index list `[2, 1, 0]` over the unit UV triangle against
its expansion `[(0,1), (1,0), (0,0)]`. -/
theorem C6_mesh_encoding_equivalence_witness :
    get_ray_mesh_hit_uv ⟨some 0, ⟨1, 0, 0⟩⟩
        ⟨some (VertexAttributeValues.Float32x2 [⟨0, 0⟩, ⟨1, 0⟩, ⟨0, 1⟩]),
          some (Indices.U16 [2, 1, 0])⟩ =
      get_ray_mesh_hit_uv ⟨some 0, ⟨1, 0, 0⟩⟩
        ⟨some (VertexAttributeValues.Float32x2 [⟨0, 0⟩, ⟨1, 0⟩, ⟨0, 1⟩]),
          some (Indices.U32 [2, 1, 0])⟩
    ∧ get_ray_mesh_hit_uv ⟨some 0, ⟨1, 0, 0⟩⟩
        ⟨some (VertexAttributeValues.Float32x2 [⟨0, 0⟩, ⟨1, 0⟩, ⟨0, 1⟩]),
          some (Indices.U16 [2, 1, 0])⟩ =
      get_ray_mesh_hit_uv ⟨some 0, ⟨1, 0, 0⟩⟩
        ⟨some (VertexAttributeValues.Float32x2 [⟨0, 1⟩, ⟨1, 0⟩, ⟨0, 0⟩]), none⟩ :=
  C6_mesh_encoding_equivalence ⟨some 0, ⟨1, 0, 0⟩⟩ [2, 1, 0]
    [⟨0, 0⟩, ⟨1, 0⟩, ⟨0, 1⟩] [⟨0, 1⟩, ⟨1, 0⟩, ⟨0, 0⟩]
    (by intro i
        rcases i with _ | _ | _ | i <;> simp [List.get?])

/-! ## Claim C8 -/

/-- When a prefix of the hit list is processed without error, processing the
whole list continues from the prefix's final state: every hit is processed,
in order. -/
theorem processHits_append (pre post : List (ℕ × RayMeshHit))
    (surfaces : List SurfaceRow) (ids : List ℕ) (events : List PointerInput)
    (surfaces₁ : List SurfaceRow) (ids₁ : List ℕ) (events₁ : List PointerInput)
    (h : processHits surfaces ids events pre = (surfaces₁, ids₁, events₁, none)) :
    processHits surfaces ids events (pre ++ post) =
      processHits surfaces₁ ids₁ events₁ post := by
  induction pre generalizing surfaces ids events with
  | nil =>
    simp only [processHits, Prod.mk.injEq] at h
    obtain ⟨rfl, rfl, rfl, -⟩ := h
    rfl
  | cons x pre ih =>
    obtain ⟨cube, hitx⟩ := x
    rw [List.cons_append]
    cases hp : processHit surfaces cube hitx with
    | error e =>
      simp only [processHits, hp] at h
      simp at h
    | ok r =>
      obtain ⟨s', i', e'⟩ := r
      simp only [processHits, hp] at h ⊢
      exact ih _ _ _ h

/-- C8: the ray cast of the ray-to-cursor pass is configured with a filter
restricting hits to entities carrying the UI-surface marker and with an
early-exit test that is constantly false (every hit along every ray is
processed); and when several hits resolve to the same surface in one frame,
the surface's stored cursor position after the pass is the one derived from
the last processed hit, whatever the earlier hits did. -/
theorem C8_no_early_exit_last_hit_wins
    (surfaces_check : List ℕ) (surfaces : List SurfaceRow)
    (pre : List (ℕ × RayMeshHit)) (cube : ℕ) (hit : RayMeshHit)
    (surfaces₁ : List SurfaceRow) (ids₁ : List ℕ) (events₁ : List PointerInput)
    (surface : SurfaceRow) (uv : Vec2)
    (hpre : processHits surfaces [] [] pre = (surfaces₁, ids₁, events₁, none))
    (hget : queryGet surfaces₁ cube = Except.ok surface)
    (huv : get_ray_mesh_hit_uv hit surface.mesh = Except.ok (some uv)) :
    ((raycast_settings surfaces_check).early_exit_test = fun _ => false)
    ∧ (∀ entity, (raycast_settings surfaces_check).filter entity =
        surfaces_check.contains entity)
    ∧ ∃ surfaces₂ ids₂ events₂,
        drive_diegetic_pointer surfaces [pre ++ [(cube, hit)]] =
          (surfaces₂, ids₂, events₂, none)
        ∧ queryGet surfaces₂ cube =
            Except.ok { surface with
              cursor_last := derivedPosition surface.render_target.size uv } := by
  refine ⟨rfl, fun entity => rfl, ?_⟩
  have hflat : ([pre ++ [(cube, hit)]] : List (List (ℕ × RayMeshHit))).flatten =
      pre ++ [(cube, hit)] := by simp
  rw [drive_diegetic_pointer, hflat,
    processHits_append pre [(cube, hit)] surfaces [] [] surfaces₁ ids₁ events₁ hpre]
  by_cases hpos : derivedPosition surface.render_target.size uv = surface.cursor_last
  · refine ⟨surfaces₁, ids₁ ++ [surface.pointer_id], events₁ ++ [], ?_, ?_⟩
    · simp only [processHits,
        processHit_unchanged surfaces₁ cube hit surface uv hget huv hpos]
    · rw [hpos]
      exact hget
  · refine ⟨setCursor surfaces₁ cube (derivedPosition surface.render_target.size uv),
      ids₁ ++ [surface.pointer_id],
      events₁ ++ [⟨surface.pointer_id,
        ⟨surface.render_target.target, derivedPosition surface.render_target.size uv⟩,
        PointerAction.Move
          ((derivedPosition surface.render_target.size uv).sub surface.cursor_last)⟩],
      ?_, ?_⟩
    · simp only [processHits,
        processHit_moved surfaces₁ cube hit surface uv hget huv hpos]
    · exact queryGet_setCursor surfaces₁ cube _ surface hget

/-- Witness for C8: two hits on the same surface in one pass; the stored
cursor ends at the last hit's derived position `(0, 200)`, not the first
hit's `(100, 0)`. -/
theorem C8_no_early_exit_last_hit_wins_witness :
    ((raycast_settings [11]).early_exit_test = fun _ => false)
    ∧ (∀ entity, (raycast_settings [11]).filter entity = List.contains [11] entity)
    ∧ ∃ surfaces₂ ids₂ events₂,
        drive_diegetic_pointer
          [⟨11, 13, ⟨0, ⟨100, 200⟩⟩,
            ⟨some (VertexAttributeValues.Float32x2 [⟨0, 0⟩, ⟨1, 0⟩, ⟨0, 1⟩]), none⟩,
            ⟨0, 0⟩⟩]
          [[(11, ⟨some 0, ⟨1, 0, 0⟩⟩)] ++ [(11, ⟨some 0, ⟨0, 1, 0⟩⟩)]] =
          (surfaces₂, ids₂, events₂, none)
        ∧ queryGet surfaces₂ 11 =
            Except.ok ⟨11, 13, ⟨0, ⟨100, 200⟩⟩,
              ⟨some (VertexAttributeValues.Float32x2 [⟨0, 0⟩, ⟨1, 0⟩, ⟨0, 1⟩]), none⟩,
              derivedPosition ⟨100, 200⟩ ⟨0, 1⟩⟩ :=
  C8_no_early_exit_last_hit_wins [11]
    [⟨11, 13, ⟨0, ⟨100, 200⟩⟩,
      ⟨some (VertexAttributeValues.Float32x2 [⟨0, 0⟩, ⟨1, 0⟩, ⟨0, 1⟩]), none⟩,
      ⟨0, 0⟩⟩]
    [(11, ⟨some 0, ⟨1, 0, 0⟩⟩)] 11 ⟨some 0, ⟨0, 1, 0⟩⟩
    (setCursor
      [⟨11, 13, ⟨0, ⟨100, 200⟩⟩,
        ⟨some (VertexAttributeValues.Float32x2 [⟨0, 0⟩, ⟨1, 0⟩, ⟨0, 1⟩]), none⟩,
        ⟨0, 0⟩⟩] 11 (derivedPosition ⟨100, 200⟩ ⟨1, 0⟩))
    [13] [⟨13, ⟨0, derivedPosition ⟨100, 200⟩ ⟨1, 0⟩⟩,
      PointerAction.Move ((derivedPosition ⟨100, 200⟩ ⟨1, 0⟩).sub ⟨0, 0⟩)⟩]
    ⟨11, 13, ⟨0, ⟨100, 200⟩⟩,
      ⟨some (VertexAttributeValues.Float32x2 [⟨0, 0⟩, ⟨1, 0⟩, ⟨0, 1⟩]), none⟩,
      derivedPosition ⟨100, 200⟩ ⟨1, 0⟩⟩
    ⟨0, 1⟩
    (by norm_num [processHits, processHit, queryGet, List.find?,
      get_ray_mesh_hit_uv, triangleUvs, sliceIndex, optionUnwrap, Vec3.zxy,
      Vec2.smul, Vec2.add, Vec2.sub, derivedPosition, UVec2.as_vec2, Vec2.cmul,
      setCursor])
    (by simp [queryGet, setCursor, List.find?])
    (by simp [get_ray_mesh_hit_uv, triangleUvs, sliceIndex, optionUnwrap,
      Vec3.zxy, Vec2.smul, Vec2.add])

/-! ## Claim C10 -/

/-- All three UV reads through the index list `l` for the triangle starting
at `i` are in bounds (both the index-buffer read and the UV-buffer read). -/
def triBoundsOk (l : List ℕ) (uvs : List Vec2) (i : ℕ) : Bool :=
  (l[i]?.bind (fun k => uvs[k]?)).isSome
    && (l[i + 1]?.bind (fun k => uvs[k]?)).isSome
    && (l[i + 2]?.bind (fun k => uvs[k]?)).isSome

/-- The unstated precondition of `get_ray_mesh_hit_uv` when the mesh carries
a `Float32x2` UV attribute: the hit has a triangle index and every slice
access of the function (through the 16-bit or 32-bit index buffer, or direct
for a non-indexed mesh) is within bounds. -/
def hitUvAccessOk (hit : RayMeshHit) (uvs : List Vec2)
    (indices : Option Indices) : Bool :=
  match hit.triangle_index with
  | none => false
  | some t =>
    match indices with
    | some (Indices.U16 l) => triBoundsOk l uvs (t * 3)
    | some (Indices.U32 l) => triBoundsOk l uvs (t * 3)
    | none => decide (t * 3 + 2 < uvs.length)

/-- Case split for a 16-bit indexed mesh: in-bounds accesses give a UV,
out-of-bounds accesses panic. -/
theorem indexed_uv_cases (t : ℕ) (bc : Vec3) (l : List ℕ) (uvs : List Vec2) :
    (triBoundsOk l uvs (t * 3) = true →
      ∃ uv, get_ray_mesh_hit_uv ⟨some t, bc⟩
          ⟨some (VertexAttributeValues.Float32x2 uvs), some (Indices.U16 l)⟩ =
        Except.ok (some uv))
    ∧ (triBoundsOk l uvs (t * 3) = false →
      ∃ msg, get_ray_mesh_hit_uv ⟨some t, bc⟩
          ⟨some (VertexAttributeValues.Float32x2 uvs), some (Indices.U16 l)⟩ =
        Except.error msg) := by
  rcases hb0 : l[t * 3]? with _ | j0
  · refine ⟨fun hok => absurd hok ?_, fun _ => ⟨"index out of bounds", ?_⟩⟩
    · simp [triBoundsOk, hb0]
    · simp [get_ray_mesh_hit_uv, triangleUvs, optionUnwrap, sliceIndex, hb0]
  rcases hg0 : uvs[j0]? with _ | u0
  · refine ⟨fun hok => absurd hok ?_, fun _ => ⟨"index out of bounds", ?_⟩⟩
    · simp [triBoundsOk, hb0, hg0]
    · simp [get_ray_mesh_hit_uv, triangleUvs, optionUnwrap, sliceIndex, hb0, hg0]
  rcases hb1 : l[t * 3 + 1]? with _ | j1
  · refine ⟨fun hok => absurd hok ?_, fun _ => ⟨"index out of bounds", ?_⟩⟩
    · simp [triBoundsOk, hb1]
    · simp [get_ray_mesh_hit_uv, triangleUvs, optionUnwrap, sliceIndex, hb0, hg0, hb1]
  rcases hg1 : uvs[j1]? with _ | u1
  · refine ⟨fun hok => absurd hok ?_, fun _ => ⟨"index out of bounds", ?_⟩⟩
    · simp [triBoundsOk, hb1, hg1]
    · simp [get_ray_mesh_hit_uv, triangleUvs, optionUnwrap, sliceIndex, hb0, hg0,
        hb1, hg1]
  rcases hb2 : l[t * 3 + 2]? with _ | j2
  · refine ⟨fun hok => absurd hok ?_, fun _ => ⟨"index out of bounds", ?_⟩⟩
    · simp [triBoundsOk, hb2]
    · simp [get_ray_mesh_hit_uv, triangleUvs, optionUnwrap, sliceIndex, hb0, hg0,
        hb1, hg1, hb2]
  rcases hg2 : uvs[j2]? with _ | u2
  · refine ⟨fun hok => absurd hok ?_, fun _ => ⟨"index out of bounds", ?_⟩⟩
    · simp [triBoundsOk, hb2, hg2]
    · simp [get_ray_mesh_hit_uv, triangleUvs, optionUnwrap, sliceIndex, hb0, hg0,
        hb1, hg1, hb2, hg2]
  refine ⟨fun _ => ⟨((Vec2.smul bc.z u0).add (Vec2.smul bc.x u1)).add
      (Vec2.smul bc.y u2), ?_⟩, fun hfail => absurd hfail ?_⟩
  · simp [get_ray_mesh_hit_uv, triangleUvs, optionUnwrap, sliceIndex, hb0,
      hg0, hb1, hg1, hb2, hg2, Vec3.zxy]
  · simp [triBoundsOk, hb0, hg0, hb1, hg1, hb2, hg2]

/-- Case split for a non-indexed mesh: in-bounds accesses give a UV,
out-of-bounds accesses panic. -/
theorem nonindexed_uv_cases (t : ℕ) (bc : Vec3) (uvs : List Vec2) :
    (decide (t * 3 + 2 < uvs.length) = true →
      ∃ uv, get_ray_mesh_hit_uv ⟨some t, bc⟩
          ⟨some (VertexAttributeValues.Float32x2 uvs), none⟩ =
        Except.ok (some uv))
    ∧ (decide (t * 3 + 2 < uvs.length) = false →
      ∃ msg, get_ray_mesh_hit_uv ⟨some t, bc⟩
          ⟨some (VertexAttributeValues.Float32x2 uvs), none⟩ =
        Except.error msg) := by
  rcases h0 : uvs[t * 3]? with _ | u0
  · refine ⟨fun hok => ?_, fun _ => ⟨"index out of bounds", ?_⟩⟩
    · rw [decide_eq_true_iff] at hok
      exact absurd (List.getElem?_eq_none_iff.mp h0) (by omega)
    · simp [get_ray_mesh_hit_uv, triangleUvs, optionUnwrap, sliceIndex, h0]
  rcases h1 : uvs[t * 3 + 1]? with _ | u1
  · refine ⟨fun hok => ?_, fun _ => ⟨"index out of bounds", ?_⟩⟩
    · rw [decide_eq_true_iff] at hok
      exact absurd (List.getElem?_eq_none_iff.mp h1) (by omega)
    · simp [get_ray_mesh_hit_uv, triangleUvs, optionUnwrap, sliceIndex, h0, h1]
  rcases h2 : uvs[t * 3 + 2]? with _ | u2
  · refine ⟨fun hok => ?_, fun _ => ⟨"index out of bounds", ?_⟩⟩
    · rw [decide_eq_true_iff] at hok
      exact absurd (List.getElem?_eq_none_iff.mp h2) (by omega)
    · simp [get_ray_mesh_hit_uv, triangleUvs, optionUnwrap, sliceIndex, h0, h1, h2]
  refine ⟨fun _ => ⟨((Vec2.smul bc.z u0).add (Vec2.smul bc.x u1)).add
      (Vec2.smul bc.y u2), ?_⟩, fun hfail => ?_⟩
  · simp [get_ray_mesh_hit_uv, triangleUvs, optionUnwrap, sliceIndex, h0, h1,
      h2, Vec3.zxy]
  · rw [decide_eq_false_iff_not, not_lt] at hfail
    rw [List.getElem?_eq_none_iff.mpr hfail] at h2
    cases h2

/-- C10: when the mesh has a `Float32x2` UV attribute, `get_ray_mesh_hit_uv`
returns `Some(uv)` exactly under the unstated precondition that the hit has
a triangle index and all vertex accesses for that triangle (through the
16-bit or 32-bit index buffer, or direct for a non-indexed mesh) are within
bounds; outside the precondition it panics (`unwrap` of a missing triangle
index or out-of-bounds indexing) rather than returning `None`. -/
theorem C10_unwrap_and_bounds_panic (hit : RayMeshHit) (uvs : List Vec2)
    (indices : Option Indices) :
    (hitUvAccessOk hit uvs indices = true →
      ∃ uv, get_ray_mesh_hit_uv hit
          ⟨some (VertexAttributeValues.Float32x2 uvs), indices⟩ =
        Except.ok (some uv))
    ∧ (hitUvAccessOk hit uvs indices = false →
      ∃ msg, get_ray_mesh_hit_uv hit
          ⟨some (VertexAttributeValues.Float32x2 uvs), indices⟩ =
        Except.error msg) := by
  rcases hit with ⟨ti, bc⟩
  cases ti with
  | none =>
    refine ⟨fun hok => absurd hok ?_, fun _ => ⟨"called unwrap on a None value", ?_⟩⟩
    · simp [hitUvAccessOk]
    · rcases indices with _ | idx
      · simp [get_ray_mesh_hit_uv, triangleUvs, optionUnwrap]
      · cases idx <;> simp [get_ray_mesh_hit_uv, triangleUvs, optionUnwrap]
  | some t =>
    rcases indices with _ | idx
    · have h := nonindexed_uv_cases t bc uvs
      simpa [hitUvAccessOk] using h
    · cases idx with
      | U16 l =>
        have h := indexed_uv_cases t bc l uvs
        simpa [hitUvAccessOk] using h
      | U32 l =>
        have h := indexed_uv_cases t bc l uvs
        have heq : get_ray_mesh_hit_uv ⟨some t, bc⟩
            ⟨some (VertexAttributeValues.Float32x2 uvs), some (Indices.U32 l)⟩ =
          get_ray_mesh_hit_uv ⟨some t, bc⟩
            ⟨some (VertexAttributeValues.Float32x2 uvs), some (Indices.U16 l)⟩ := rfl
        rw [show hitUvAccessOk ⟨some t, bc⟩ uvs (some (Indices.U32 l)) =
          triBoundsOk l uvs (t * 3) from rfl, heq]
        exact h

/-- Witness for C10: an in-bounds hit yields `Some(uv)`; triangle index 1 on
a 3-vertex single-triangle mesh is out of bounds and panics. -/
theorem C10_unwrap_and_bounds_panic_witness :
    (∃ uv, get_ray_mesh_hit_uv ⟨some 0, ⟨1, 0, 0⟩⟩
        ⟨some (VertexAttributeValues.Float32x2 [⟨0, 0⟩, ⟨1, 0⟩, ⟨0, 1⟩]),
          some (Indices.U16 [0, 1, 2])⟩ =
      Except.ok (some uv))
    ∧ (∃ msg, get_ray_mesh_hit_uv ⟨some 1, ⟨1, 0, 0⟩⟩
        ⟨some (VertexAttributeValues.Float32x2 [⟨0, 0⟩, ⟨1, 0⟩, ⟨0, 1⟩]),
          some (Indices.U16 [0, 1, 2])⟩ =
      Except.error msg) :=
  ⟨(C10_unwrap_and_bounds_panic ⟨some 0, ⟨1, 0, 0⟩⟩ [⟨0, 0⟩, ⟨1, 0⟩, ⟨0, 1⟩]
      (some (Indices.U16 [0, 1, 2]))).1
    (by simp [hitUvAccessOk, triBoundsOk]),
   (C10_unwrap_and_bounds_panic ⟨some 1, ⟨1, 0, 0⟩⟩ [⟨0, 0⟩, ⟨1, 0⟩, ⟨0, 1⟩]
      (some (Indices.U16 [0, 1, 2]))).2
    (by simp [hitUvAccessOk, triBoundsOk])⟩

end WorldSpaceUi
